import Mathlib

/-!
Verification of the YOK_Akademik_MCP scraping pipeline.

Shallow embedding of the incremental scraping-and-persistence core:
* `src/src/tools/scrape_main_profile.py` — pagination loop, 100-profile cap,
  URL deduplication, incremental "ongoing" snapshots, final "completed"
  snapshot, `main_done.txt` marker;
* `src/src/tools/scrape_collaborators.py` — per-node collaborator record
  construction, incremental snapshot writes, `collaborators_done.txt` marker;
* `src/src/core/mcp_orchestrator.py` — the file-watch dispatcher handlers
  `handle_main_profile_update` and `handle_collaborators_update`.

Browser I/O (Selenium waits, DOM reads) is the environment: a result row
arrives either as a fully parsed record or as a raised exception, matching
the try/except granularity of the Python loop.
-/

namespace YokMcp

/-- Constant `BASE` from both scraper scripts. -/
def BASE : String := "https://akademik.yok.gov.tr/"

/-- Constant `DEFAULT_PHOTO_URL` from both scraper scripts. -/
def DEFAULT_PHOTO_URL : String := "/default_photo.jpg"

/-- One academic profile as appended by `scrape_main_profile.py` (lines
266-278): the dict pushed onto `profiles`.  `author_id` is the result of the
split-based extractor there, which may return `None`. -/
structure ProfileRecord where
  author_id : Option String
  name : String
  title : String
  profile_url : String
  photo_url : String
  info : String
  education : String
  field : String
  speciality : String
  keywords : String
  email : String
deriving DecidableEq, Repr

/-- One collaborator node record as appended by `scrape_collaborators.py`
(lines 296-303): the `collaborator_profile` dict. -/
structure CollaboratorRecord where
  author_id : String
  name : String
  info : String
  photo_url : String
  profile_url : String
  status : String
deriving DecidableEq, Repr

/- ### `extract_author_id_from_url` of scrape_collaborators.py (lines 26-35)

Python: `re.search(r'authorId=([^&]+)', url)`; empty/falsy url returns "".
The regex scans left to right for an occurrence of the literal `authorId=`
followed by at least one character other than `&`; the captured group is the
maximal run of non-`&` characters after the `=`. -/

/-- The maximal run of characters before the first `&` (the `[^&]+` group). -/
def takeUntilAmp : List Char → List Char
  | [] => []
  | c :: cs => if c = '&' then [] else c :: takeUntilAmp cs

/-- The literal searched for by the regex `authorId=([^&]+)`. -/
def authorIdKey : List Char := "authorId=".toList

/-- Left-to-right scan of `re.search(r'authorId=([^&]+)', url)`: at each
position, match the literal key and require a following non-`&` character;
otherwise move one character right. -/
def searchAuthorId : List Char → Option String
  | [] => none
  | c :: cs =>
      if authorIdKey.isPrefixOf (c :: cs) then
        match (c :: cs).drop authorIdKey.length with
        | [] => searchAuthorId cs
        | d :: ds =>
            if d = '&' then searchAuthorId cs
            else some (String.mk (takeUntilAmp (d :: ds)))
      else searchAuthorId cs

/-- `extract_author_id_from_url` of `scrape_collaborators.py`: empty string
for a falsy url, the regex capture when it matches, "" otherwise. -/
def extract_author_id_from_url (url : String) : String :=
  if url = "" then ""
  else
    match searchAuthorId url.toList with
    | some s => s
    | none => ""

/- ### Collaborator record construction (scrape_collaborators.py 263-306) -/

/-- One object returned by the graph-walking JavaScript
(`isimler_ve_linkler` element): `name`, `profile_url`, `photo_url`, `info`,
all strings, possibly empty (Python falsiness = empty string). -/
structure GraphObj where
  name : String
  profile_url : String
  photo_url : String
  info : String
deriving DecidableEq, Repr

/-- The per-node record construction of `scrape_collaborators.py` lines
263-303: the unresolved ("deleted") branch when `profile_url` is falsy,
otherwise photo-url normalisation (default / data-URI kept / relative
resolved against `BASE`) and the info-falls-back-to-name rule. -/
def mkCollaboratorProfile (obj : GraphObj) : CollaboratorRecord :=
  let author_id := extract_author_id_from_url obj.profile_url
  if obj.profile_url = "" then
    { author_id := author_id
      name := obj.name
      info := "Profil bulunamadı"
      photo_url := DEFAULT_PHOTO_URL
      profile_url := ""
      status := "completed" }
  else
    let photo_url :=
      if obj.photo_url = "" ∨ obj.photo_url.trim = "" then DEFAULT_PHOTO_URL
      else if obj.photo_url.startsWith "data:image" then obj.photo_url
      else if obj.photo_url.startsWith "/" then
        BASE ++ String.mk (obj.photo_url.toList.dropWhile (fun c => c = '/'))
      else obj.photo_url
    let info := if obj.info = "" then obj.name else obj.info
    { author_id := author_id
      name := obj.name
      info := info
      photo_url := photo_url
      profile_url := obj.profile_url
      status := "completed" }

/-- The `collaborators_data` dict of `scrape_collaborators.py` (lines
132-137): the collaborator snapshot written to `collaborators.json`. -/
structure CollaboratorsData where
  total_profiles : Nat
  status : String
  selected_profile : String
  collaborator_profiles : List CollaboratorRecord
deriving DecidableEq, Repr

/-- One iteration of the node loop (lines 263-315): append the constructed
record and refresh `total_profiles` to the list length before the snapshot
write. -/
def collabStep (data : CollaboratorsData) (obj : GraphObj) : CollaboratorsData :=
  let profs := data.collaborator_profiles ++ [mkCollaboratorProfile obj]
  { data with collaborator_profiles := profs, total_profiles := profs.length }

/-- The collaborator run (lines 132-341): fold the node loop over the
extracted graph objects, set `status` to "completed", and write the
`collaborators_done.txt` marker — whose content is the literal written at
line 338, `f.write("done")` — only when at least one collaborator was
recorded.  Result: final in-memory data and the marker content
(`none` = marker not written). -/
def collabRun (selected : String) (objs : List GraphObj) :
    CollaboratorsData × Option String :=
  let init : CollaboratorsData :=
    { total_profiles := 0
      status := "scraping"
      selected_profile := selected
      collaborator_profiles := [] }
  let data := objs.foldl collabStep init
  let data := { data with status := "completed" }
  if data.collaborator_profiles = [] then (data, none) else (data, some "done")

/- ### Profile extractor pagination loop (scrape_main_profile.py 195-359) -/

/-- Outcome of the per-row try block (lines 214-287): either the row parsed
into a full record (whose `profile_url` is the row's link href used for
dedup), or some step raised and the `except` at line 286 swallowed it. -/
inductive RowOutcome where
  | ok (rec : ProfileRecord)
  | err
deriving DecidableEq, Repr

/-- Whether a row parsed successfully. -/
def RowOutcome.isOk : RowOutcome → Bool
  | RowOutcome.ok _ => true
  | RowOutcome.err => false

/-- The loop state of `scrape_main_profile.py` lines 196-197: the
accumulated `profiles` list and the `profile_urls` set (modelled as the list
of added urls; only membership is consulted). -/
structure ScrapeState where
  profiles : List ProfileRecord
  profile_urls : List String
deriving DecidableEq, Repr

/-- Initial loop state (empty list, empty set). -/
def initState : ScrapeState := ⟨[], []⟩

/-- The inner `for row in profile_rows` loop (lines 214-287): a failed row
is skipped by the `except`; a duplicate url is skipped by the `continue` at
line 228; otherwise the record is appended, its url added to the set, and —
only after a successful append — the 100-profile check at line 283 breaks
out of the page. -/
def processRows : ScrapeState → List RowOutcome → ScrapeState
  | st, [] => st
  | st, RowOutcome.err :: rest => processRows st rest
  | st, RowOutcome.ok rec :: rest =>
      if rec.profile_url ∈ st.profile_urls then
        processRows st rest
      else
        let st' : ScrapeState :=
          ⟨st.profiles ++ [rec], st.profile_urls ++ [rec.profile_url]⟩
        if 100 ≤ st'.profiles.length then st'
        else processRows st' rest

/-- The `result_data` document written to `main_profile.json` (both the
incremental write at lines 298-304 and the final one at lines 332-338). -/
structure MainSnapshot where
  session_id : String
  total_profiles : Nat
  status : String
  searched_name : String
  profiles : List ProfileRecord
deriving DecidableEq, Repr

/-- The incremental snapshot written at lines 298-306: `status="ongoing"`,
`total_profiles = len(profiles)`. -/
def ongoingSnapshot (sid nm : String) (st : ScrapeState) : MainSnapshot :=
  { session_id := sid
    total_profiles := st.profiles.length
    status := "ongoing"
    searched_name := nm
    profiles := st.profiles }

/-- The final snapshot written at lines 332-344: `status="completed"`. -/
def completedSnapshot (sid nm : String) (st : ScrapeState) : MainSnapshot :=
  { session_id := sid
    total_profiles := st.profiles.length
    status := "completed"
    searched_name := nm
    profiles := st.profiles }

/-- The outer `while True` pagination loop (lines 200-328).  Each element of
`pages` is the row list served for one result page; an exhausted `pages`
models the wait failure / last-page / pagination-failure breaks.  A page
with zero rows breaks at line 213.  After a page, the cap check at line 292
breaks — before the incremental write — when 100 profiles were reached;
otherwise the "ongoing" snapshot is written (line 305) and pagination
continues.  Returns the ongoing snapshots in write order and the final loop
state. -/
def runPages (sid nm : String) :
    ScrapeState → List (List RowOutcome) → List MainSnapshot × ScrapeState
  | st, [] => ([], st)
  | st, rows :: rest =>
      if rows.length = 0 then ([], st)
      else if 100 ≤ (processRows st rows).profiles.length then ([], processRows st rows)
      else
        (ongoingSnapshot sid nm (processRows st rows) ::
            (runPages sid nm (processRows st rows) rest).1,
          (runPages sid nm (processRows st rows) rest).2)

/-- All artifacts of one completed run of `scrape_main_profile.py`:
the ongoing snapshots in write order, the final snapshot, and the content of
`main_done.txt` (`none` when not written, the literal of line 354,
`f.write("done")`, when written). -/
structure ScrapeResult where
  ongoing : List MainSnapshot
  final : MainSnapshot
  mainDoneMarker : Option String
deriving DecidableEq, Repr

/-- A whole run (lines 195-359): the pagination loop from the empty state,
the final "completed" snapshot write at lines 332-344, and the
`main_done.txt` marker written at lines 350-356 only `if profiles:`. -/
def scrapeRun (sid nm : String) (pages : List (List RowOutcome)) : ScrapeResult :=
  let r := runPages sid nm initState pages
  { ongoing := r.1
    final := completedSnapshot sid nm r.2
    mainDoneMarker := if r.2.profiles = [] then none else some "done" }

/- ### File-watch dispatcher (mcp_orchestrator.py) -/

/-- Events emitted by the dispatcher handlers (only the fields the claims
inspect; timestamps and free-text messages are omitted). -/
inductive Event where
  | progress_update (profiles_found total_profiles : Nat)
      (status searched_name : String)
  | profile_url_missing
  | collaborator_found (collaborator : CollaboratorRecord) (total_count : Nat)
  | no_collaborators_found
  | collaborators_completed
deriving DecidableEq, Repr

/-- The value `json.loads` can yield for `collaborators.json` in
`handle_collaborators_update`: either a JSON array of records (what the
handler's `len`/`[-1]` code assumes, and the shape of the parse-error
fallback `collaborators = []`), or the four-key object that
`scrape_collaborators.py` actually writes. -/
inductive CollabJson where
  | arr (records : List CollaboratorRecord)
  | obj (snapshot : CollaboratorsData)
deriving DecidableEq, Repr

/-- Python `len` on the parsed value: list length, or the dict's key count
(the scraper's dict has the four keys `total_profiles`, `status`,
`selected_profile`, `collaborator_profiles`). -/
def pyLen : CollabJson → Nat
  | CollabJson.arr rs => rs.length
  | CollabJson.obj _ => 4

/-- Python truthiness of the parsed value: an empty list is falsy, a
non-empty list truthy, the scraper's four-key dict always truthy. -/
def pyTruthy : CollabJson → Bool
  | CollabJson.arr rs => decide (rs ≠ [])
  | CollabJson.obj _ => true

/-- Python `collaborators[-1]`: last element of a list; on the dict (or an
empty list) it raises (`KeyError`/`IndexError`), modelled as `none`. -/
def pyLastItem : CollabJson → Option CollaboratorRecord
  | CollabJson.arr rs => rs.getLast?
  | CollabJson.obj _ => none

/-- The dispatcher-side per-session state consulted by
`handle_collaborators_update`: `SessionInfo.collaborators`, which starts as
the empty Python list and is overwritten with each parsed snapshot. -/
structure OrchSession where
  collaborators : CollabJson
deriving DecidableEq, Repr

/-- `YOKAcademicAssistant.handle_collaborators_update` (lines 384-495).
`fileContent = none` models a missing `collaborators.json` (early return);
empty or unparsable content has already been replaced by the fallback
`CollabJson.arr []` per lines 396-400.  `tracked` is the
`session_id in self.sessions` test; when false the handler updates and
emits nothing.  Returns the updated session state and the emitted events in
order.  When `collaborators[-1]` raises (dict snapshot or empty list), the
outer `except Exception: pass` swallows it after the state update, so no
event is emitted. -/
def handle_collaborators_update (tracked : Bool) (sess : OrchSession)
    (fileContent : Option CollabJson) : OrchSession × List Event :=
  match fileContent with
  | none => (sess, [])
  | some parsed =>
      if tracked then
        let previous_count :=
          if pyTruthy sess.collaborators then pyLen sess.collaborators else 0
        let current_count := pyLen parsed
        let sess' : OrchSession := { collaborators := parsed }
        if current_count = 0 ∧ previous_count = 0 then
          (sess', [Event.no_collaborators_found, Event.collaborators_completed])
        else if previous_count < current_count ∧ pyTruthy parsed then
          match pyLastItem parsed with
          | some latest => (sess', [Event.collaborator_found latest current_count])
          | none => (sess', [])
        else (sess', [])
      else (sess, [])

/-- The filesystem facts consulted by
`YOKAcademicAssistant.handle_main_profile_update`: existence of
`main_profile.json`, `main_done.txt` and `collaborators_done.txt` in the
session directory at the moment the modification event is handled. -/
structure MainFs where
  mainProfileExists : Bool
  mainDoneExists : Bool
  collaboratorsDoneExists : Bool
deriving DecidableEq, Repr

/-- `YOKAcademicAssistant.handle_main_profile_update` (lines 263-382) for
one observed modification of `main_profile.json`.  `data` is the parsed
snapshot (the empty/corrupt fallback of lines 277-281 already applied).
Emits `progress_update`; then, if `main_done.txt` exists and exactly one
profile is present, either returns early when `collaborators_done.txt`
already exists, emits `profile_url_missing` when the single profile has no
usable `profile_url`, or calls `start_collaborator_scraping` — the boolean
of the result. -/
def handle_main_profile_update (fs : MainFs) (data : MainSnapshot) :
    List Event × Bool :=
  if fs.mainProfileExists then
    let profiles := data.profiles
    let progress := Event.progress_update profiles.length data.total_profiles
      data.status data.searched_name
    if fs.mainDoneExists && profiles.length == 1 then
      if fs.collaboratorsDoneExists then ([progress], false)
      else
        match profiles.head? with
        | none => ([progress], false)
        | some first =>
            if first.profile_url = "" then
              ([progress, Event.profile_url_missing], false)
            else ([progress], true)
    else ([progress], false)
  else ([], false)

/-- Number of times the dispatcher calls `start_collaborator_scraping`
across a sequence of observed `main_profile.json` modifications, each seen
with its own filesystem state. -/
def countTriggers (fss : List MainFs) (data : MainSnapshot) : Nat :=
  (fss.filter (fun fs => (handle_main_profile_update fs data).2)).length

/- ### Sample concrete inputs for witnesses and counterexamples -/

/-- A concrete parsed search-result row. -/
def sampleProfile : ProfileRecord :=
  { author_id := some "AB12"
    name := "Ahmet Yilmaz"
    title := "Prof"
    profile_url := "https://akademik.yok.gov.tr/AkademikArama/view/viewAuthor.jsp?authorId=AB12"
    photo_url := "/default_photo.jpg"
    info := "Prof Ahmet Yilmaz"
    education := "Uni"
    field := "Eng"
    speciality := "CS"
    keywords := ""
    email := "" }

/-- A run whose single page serves one parsable row. -/
def samplePages : List (List RowOutcome) := [[RowOutcome.ok sampleProfile]]

/-- The i-th of 100 pairwise-distinct parsed rows. -/
def capRecord (i : Nat) : ProfileRecord :=
  { author_id := none
    name := "p" ++ Nat.repr i
    title := ""
    profile_url := "u" ++ Nat.repr i
    photo_url := "/default_photo.jpg"
    info := ""
    education := ""
    field := ""
    speciality := ""
    keywords := ""
    email := "" }

/-- One result page serving 100 distinct parsable rows: the 100-profile cap
is reached mid-run on this very page. -/
def capPage : List RowOutcome := (List.range 100).map (fun i => RowOutcome.ok (capRecord i))

/-- A concrete collaborator graph node with a resolvable link. -/
def sampleGraphObj : GraphObj :=
  { name := "Ali Veli"
    profile_url := "https://akademik.yok.gov.tr/AkademikArama/view/viewAuthor.jsp?authorId=CD34"
    photo_url := ""
    info := "" }

/-- Filesystem state while the collaborator run is still in flight:
`main_profile.json` and `main_done.txt` exist, `collaborators_done.txt`
does not yet. -/
def fsPending : MainFs :=
  { mainProfileExists := true
    mainDoneExists := true
    collaboratorsDoneExists := false }

/-- The final snapshot of the one-row sample run: completed, one profile. -/
def singleSnap : MainSnapshot := (scrapeRun "s" "q" samplePages).final

/- ### Helper lemmas on the pagination loop -/

/-- The inner row loop only appends: the incoming `profiles` list stays a
prefix of the outgoing one. -/
theorem processRows_extends (rows : List RowOutcome) (st : ScrapeState) :
    st.profiles <+: (processRows st rows).profiles := by
  induction rows generalizing st with
  | nil => exact ⟨[], by simp [processRows]⟩
  | cons r rest ih =>
      cases r with
      | err => simpa only [processRows] using ih st
      | ok rec =>
          simp only [processRows]
          split
          · exact ih st
          · split
            · exact ⟨[rec], rfl⟩
            · exact (show st.profiles <+: st.profiles ++ [rec] from ⟨[rec], rfl⟩).trans
                (ih ⟨st.profiles ++ [rec], st.profile_urls ++ [rec.profile_url]⟩)

/-- The cap check at line 283 fires right after each successful append, so a
page entered with fewer than 100 profiles ends with at most 100. -/
theorem processRows_length_le (rows : List RowOutcome) (st : ScrapeState)
    (h : st.profiles.length < 100) :
    (processRows st rows).profiles.length ≤ 100 := by
  induction rows generalizing st with
  | nil => simpa only [processRows] using Nat.le_of_lt h
  | cons r rest ih =>
      cases r with
      | err => simpa only [processRows] using ih st h
      | ok rec =>
          simp only [processRows]
          split
          · exact ih st h
          · split
            · simp only [List.length_append, List.length_cons, List.length_nil]
              omega
            · exact ih _ (by simp_all; omega)

/-- Loop-state invariant of `scrape_main_profile.py`: the `profile_urls`
set is exactly the urls of the accumulated records, and it has no
duplicates. -/
def StInv (st : ScrapeState) : Prop :=
  st.profile_urls = st.profiles.map ProfileRecord.profile_url ∧ st.profile_urls.Nodup

/-- The dedup check at line 226 preserves the loop-state invariant across a
page: a url is appended only when absent from the set, and the set and the
record list grow in lockstep. -/
theorem processRows_inv (rows : List RowOutcome) (st : ScrapeState)
    (h : StInv st) : StInv (processRows st rows) := by
  induction rows generalizing st with
  | nil => simpa only [processRows] using h
  | cons r rest ih =>
      cases r with
      | err => simpa only [processRows] using ih st h
      | ok rec =>
          simp only [processRows]
          split
          · exact ih st h
          · rename_i hmem
            have h' : StInv ⟨st.profiles ++ [rec], st.profile_urls ++ [rec.profile_url]⟩ := by
              refine ⟨by simp [h.1], ?_⟩
              simp [List.nodup_append, h.2, hmem]
            split
            · exact h'
            · exact ih _ h'

/-- The final loop state extends the state the pagination loop was entered
with: records are only ever appended. -/
theorem runPages_state_extends (pages : List (List RowOutcome)) (sid nm : String)
    (st : ScrapeState) :
    st.profiles <+: (runPages sid nm st pages).2.profiles := by
  induction pages generalizing st with
  | nil => exact ⟨[], by simp [runPages]⟩
  | cons rows rest ih =>
      simp only [runPages]
      split
      · exact ⟨[], by simp⟩
      · split
        · exact processRows_extends rows st
        · exact (processRows_extends rows st).trans (ih (processRows st rows))

/-- Combined invariant of the pagination loop, entered below the cap with a
valid dedup state: every ongoing snapshot has status "ongoing", a correct
count, strictly fewer than 100 records, pairwise-distinct urls, and its list
is a prefix of the final state's list; and the final state is capped at 100
and keeps the dedup invariant. -/
theorem runPages_spec (pages : List (List RowOutcome)) (sid nm : String)
    (st : ScrapeState) (hlen : st.profiles.length < 100) (hinv : StInv st) :
    (∀ snap ∈ (runPages sid nm st pages).1,
        snap.status = "ongoing" ∧
        snap.total_profiles = snap.profiles.length ∧
        snap.profiles.length < 100 ∧
        (snap.profiles.map ProfileRecord.profile_url).Nodup ∧
        snap.profiles <+: (runPages sid nm st pages).2.profiles) ∧
    (runPages sid nm st pages).2.profiles.length ≤ 100 ∧
    StInv (runPages sid nm st pages).2 := by
  induction pages generalizing st with
  | nil =>
      refine ⟨by simp [runPages], ?_, ?_⟩
      · simpa [runPages] using Nat.le_of_lt hlen
      · simpa [runPages] using hinv
  | cons rows rest ih =>
      by_cases h0 : rows.length = 0
      · refine ⟨by simp [runPages, h0], ?_, ?_⟩
        · simpa [runPages, h0] using Nat.le_of_lt hlen
        · simpa [runPages, h0] using hinv
      · by_cases hcap : 100 ≤ (processRows st rows).profiles.length
        · refine ⟨by simp [runPages, h0, hcap], ?_, ?_⟩
          · simpa [runPages, h0, hcap] using processRows_length_le rows st hlen
          · simpa [runPages, h0, hcap] using processRows_inv rows st hinv
        · have hlt : (processRows st rows).profiles.length < 100 := Nat.lt_of_not_le hcap
          have hinv' : StInv (processRows st rows) := processRows_inv rows st hinv
          obtain ⟨ihAll, ihLen, ihInv⟩ := ih (processRows st rows) hlt hinv'
          refine ⟨?_, ?_, ?_⟩
          · intro snap hsnap
            simp only [runPages, if_neg h0, if_neg hcap, List.mem_cons] at hsnap
            rcases hsnap with rfl | hsnap
            · refine ⟨rfl, rfl, hlt, ?_, ?_⟩
              · show (List.map ProfileRecord.profile_url (processRows st rows).profiles).Nodup
                rw [← hinv'.1]
                exact hinv'.2
              · simpa [runPages, h0, hcap] using
                  runPages_state_extends rest sid nm (processRows st rows)
            · obtain ⟨hst, htot, hl, hnd, hpre⟩ := ihAll snap hsnap
              exact ⟨hst, htot, hl, hnd, by simpa [runPages, h0, hcap] using hpre⟩
          · simpa [runPages, h0, hcap] using ihLen
          · simpa [runPages, h0, hcap] using ihInv

/-- The initial loop state satisfies the dedup invariant and is below the
cap. -/
theorem initState_inv : StInv initState ∧ initState.profiles.length < 100 :=
  ⟨⟨rfl, List.nodup_nil⟩, by simp [initState]⟩

/- ### Claim theorems -/

/-- C1: For every profile extraction run, the number of ProfileRecord
entries in every written snapshot — each incremental "ongoing" write and the
final "completed" write — never exceeds 100: the cap check after each
successful append stops row intake at 100, even mid-page. -/
theorem cap_100_every_snapshot (sid nm : String) (pages : List (List RowOutcome)) :
    (∀ snap ∈ (scrapeRun sid nm pages).ongoing, snap.profiles.length ≤ 100) ∧
    (scrapeRun sid nm pages).final.profiles.length ≤ 100 := by
  obtain ⟨hAll, hLen, -⟩ :=
    runPages_spec pages sid nm initState initState_inv.2 initState_inv.1
  constructor
  · intro snap hsnap
    simp only [scrapeRun] at hsnap
    exact Nat.le_of_lt (hAll snap hsnap).2.2.1
  · simpa [scrapeRun, completedSnapshot] using hLen

/-- Witness for C1: the one snapshot of a concrete one-page run obeys the
cap. -/
theorem cap_100_every_snapshot_witness :
    (ongoingSnapshot "s" "q" ⟨[sampleProfile], [sampleProfile.profile_url]⟩).profiles.length ≤ 100 :=
  (cap_100_every_snapshot "s" "q" samplePages).1 _ (by decide)

/-- C2: For every run that reaches completion, `main_done.txt` is written
iff the final snapshot has status "completed" and `total_profiles > 0`; a
zero-result run yields a "completed" snapshot with an empty list and no
marker. -/
theorem main_done_marker_iff (sid nm : String) (pages : List (List RowOutcome)) :
    ((scrapeRun sid nm pages).mainDoneMarker).isSome = true ↔
      ((scrapeRun sid nm pages).final.status = "completed" ∧
        0 < (scrapeRun sid nm pages).final.total_profiles) := by
  simp only [scrapeRun, completedSnapshot]
  by_cases h : (runPages sid nm initState pages).2.profiles = []
  · simp [h]
  · simp [h, List.length_pos]

/-- C3: Within one run, no two records with the same `profile_url` are ever
present: every written snapshot's list has pairwise-distinct
`profile_url` values. -/
theorem dedup_by_url_nodup (sid nm : String) (pages : List (List RowOutcome)) :
    (∀ snap ∈ (scrapeRun sid nm pages).ongoing,
        (snap.profiles.map ProfileRecord.profile_url).Nodup) ∧
    ((scrapeRun sid nm pages).final.profiles.map ProfileRecord.profile_url).Nodup := by
  obtain ⟨hAll, -, hInv⟩ :=
    runPages_spec pages sid nm initState initState_inv.2 initState_inv.1
  constructor
  · intro snap hsnap
    simp only [scrapeRun] at hsnap
    exact (hAll snap hsnap).2.2.2.1
  · show (List.map ProfileRecord.profile_url (scrapeRun sid nm pages).final.profiles).Nodup
    simp only [scrapeRun, completedSnapshot]
    rw [← hInv.1]
    exact hInv.2

/-- Witness for C3: the snapshot of a concrete one-page run has distinct
urls. -/
theorem dedup_by_url_nodup_witness :
    ((ongoingSnapshot "s" "q" ⟨[sampleProfile], [sampleProfile.profile_url]⟩).profiles.map
        ProfileRecord.profile_url).Nodup :=
  (dedup_by_url_nodup "s" "q" samplePages).1 _ (by decide)

/-- C7 counterexample: in the concrete run whose single page serves one row,
the (one) "ongoing" snapshot's list equals the final "completed" list, so it
is not a STRICT prefix of it — the claim fails as stated. -/
theorem ongoing_strict_prefix_cex :
    ¬ (∀ snap ∈ (scrapeRun "s" "q" samplePages).ongoing,
        snap.profiles <+: (scrapeRun "s" "q" samplePages).final.profiles ∧
        snap.profiles ≠ (scrapeRun "s" "q" samplePages).final.profiles) := by
  intro h
  exact (h (ongoingSnapshot "s" "q" ⟨[sampleProfile], [sampleProfile.profile_url]⟩)
      (by decide)).2 (by decide)

/-- C7 amended: every "ongoing" snapshot's list is a prefix, in append
order, of the final "completed" snapshot's list (equality is possible: the
last page's incremental write precedes an unchanged final write). -/
theorem ongoing_prefix_of_final (sid nm : String) (pages : List (List RowOutcome)) :
    ∀ snap ∈ (scrapeRun sid nm pages).ongoing,
      snap.profiles <+: (scrapeRun sid nm pages).final.profiles := by
  obtain ⟨hAll, -, -⟩ :=
    runPages_spec pages sid nm initState initState_inv.2 initState_inv.1
  intro snap hsnap
  simp only [scrapeRun] at hsnap
  simpa [scrapeRun, completedSnapshot] using (hAll snap hsnap).2.2.2.2

/-- Witness for amended C7 on the concrete one-page run. -/
theorem ongoing_prefix_of_final_witness :
    (ongoingSnapshot "s" "q" ⟨[sampleProfile], [sampleProfile.profile_url]⟩).profiles <+:
      (scrapeRun "s" "q" samplePages).final.profiles :=
  ongoing_prefix_of_final "s" "q" samplePages _ (by decide)

set_option maxRecDepth 40000 in
/-- C8 counterexample: on a page serving 100 distinct rows the cap is hit
mid-run, and the loop exits WITHOUT writing any "ongoing" snapshot — the
break at line 292 precedes the incremental write at line 305, so no
incremental write happens when the cap is reached. -/
theorem cap_break_skips_ongoing_write_cex :
    (scrapeRun "s" "q" [capPage]).ongoing = [] ∧
    (scrapeRun "s" "q" [capPage]).final.profiles.length = 100 := by decide

/-- C8 amended: the incremental "ongoing" write happens only after pages
that left the accumulated count strictly below 100; when the cap is hit the
loop exits without an "ongoing" write, and the next write is the final
"completed" snapshot. -/
theorem ongoing_write_only_below_cap (sid nm : String) (pages : List (List RowOutcome)) :
    ∀ snap ∈ (scrapeRun sid nm pages).ongoing,
      snap.status = "ongoing" ∧ snap.profiles.length < 100 := by
  obtain ⟨hAll, -, -⟩ :=
    runPages_spec pages sid nm initState initState_inv.2 initState_inv.1
  intro snap hsnap
  simp only [scrapeRun] at hsnap
  exact ⟨(hAll snap hsnap).1, (hAll snap hsnap).2.2.1⟩

/-- Witness for amended C8 on the concrete one-page run. -/
theorem ongoing_write_only_below_cap_witness :
    (ongoingSnapshot "s" "q" ⟨[sampleProfile], [sampleProfile.profile_url]⟩).status = "ongoing" ∧
    (ongoingSnapshot "s" "q" ⟨[sampleProfile], [sampleProfile.profile_url]⟩).profiles.length < 100 :=
  ongoing_write_only_below_cap "s" "q" samplePages _ (by decide)

/-- C10: an exception in one result row is caught locally — the row
contributes nothing and processing continues with the remaining rows
(dropping all failed rows leaves the page's effect unchanged), and the run
still reaches its final "completed" snapshot. -/
theorem row_failure_is_skipped (st : ScrapeState) (rows : List RowOutcome)
    (sid nm : String) (pages : List (List RowOutcome)) :
    processRows st (RowOutcome.err :: rows) = processRows st rows ∧
    processRows st rows = processRows st (rows.filter RowOutcome.isOk) ∧
    (scrapeRun sid nm pages).final.status = "completed" := by
  refine ⟨rfl, ?_, rfl⟩
  induction rows generalizing st with
  | nil => rfl
  | cons r rest ih =>
      cases r with
      | err =>
          have hf : (RowOutcome.err :: rest).filter RowOutcome.isOk
              = rest.filter RowOutcome.isOk := by
            simp [List.filter, RowOutcome.isOk]
          rw [hf]
          simpa only [processRows] using ih st
      | ok rec =>
          have hf : (RowOutcome.ok rec :: rest).filter RowOutcome.isOk
              = RowOutcome.ok rec :: rest.filter RowOutcome.isOk := by
            simp [List.filter, RowOutcome.isOk]
          rw [hf]
          simp only [processRows]
          split
          · exact ih st
          · split
            · rfl
            · exact ih _

/-- C6: a collaborator graph node with no resolved profile URL yields a
record with empty `author_id`, empty `profile_url`, the default photo
placeholder, and the literal fallback info text. -/
theorem unresolved_collaborator_record (obj : GraphObj) (h : obj.profile_url = "") :
    mkCollaboratorProfile obj =
      { author_id := ""
        name := obj.name
        info := "Profil bulunamadı"
        photo_url := DEFAULT_PHOTO_URL
        profile_url := ""
        status := "completed" } := by
  simp [mkCollaboratorProfile, extract_author_id_from_url, h]

/-- Witness for C6 at a concrete link-less graph node. -/
theorem unresolved_collaborator_record_witness :
    mkCollaboratorProfile ⟨"Ali Veli", "", "x.jpg", "some info"⟩ =
      { author_id := ""
        name := "Ali Veli"
        info := "Profil bulunamadı"
        photo_url := DEFAULT_PHOTO_URL
        profile_url := ""
        status := "completed" } :=
  unresolved_collaborator_record ⟨"Ali Veli", "", "x.jpg", "some info"⟩ rfl

/-- C9 counterexample: on concrete runs with non-empty results, both
`main_done.txt` and `collaborators_done.txt` are written with the four-byte
content "done", not with empty content — the markers are not zero-byte. -/
theorem zero_byte_marker_cex :
    (scrapeRun "s" "q" samplePages).mainDoneMarker = some "done" ∧
    (collabRun "sel" [sampleGraphObj]).2 = some "done" ∧
    ("done" : String) ≠ "" := by decide

/-- C9 amended: the completion markers, when written at all, are written
with the literal content "done"; only their existence carries meaning. -/
theorem marker_content_is_done (sid nm : String) (pages : List (List RowOutcome))
    (sel : String) (objs : List GraphObj) :
    ((scrapeRun sid nm pages).mainDoneMarker = none ∨
      (scrapeRun sid nm pages).mainDoneMarker = some "done") ∧
    ((collabRun sel objs).2 = none ∨ (collabRun sel objs).2 = some "done") := by
  constructor
  · simp only [scrapeRun]
    split
    · simp
    · simp
  · simp only [collabRun]
    split
    · simp
    · simp

/-- C4: when the dispatcher observes a collaborator snapshot (a JSON array)
grow from N records to N+1, it emits exactly one `collaborator_found` event,
carrying only the (N+1)-th record and the new total count — the previous N
records are not re-emitted. -/
theorem collaborator_found_single_newest (L Lnew : List CollaboratorRecord)
    (r : CollaboratorRecord) (sess : OrchSession)
    (hsess : sess.collaborators = CollabJson.arr L)
    (hgrow : Lnew.length = L.length + 1)
    (hlast : Lnew[L.length]? = some r) :
    (handle_collaborators_update true sess (some (CollabJson.arr Lnew))).2
      = [Event.collaborator_found r Lnew.length] := by
  have hprev : (if pyTruthy (CollabJson.arr L) then pyLen (CollabJson.arr L) else 0)
      = L.length := by
    cases L
    · simp [pyTruthy, pyLen]
    · simp [pyTruthy, pyLen]
  have hne : Lnew ≠ [] := by
    intro he
    rw [he] at hgrow
    simp at hgrow
  have hlast' : Lnew.getLast? = some r := by
    rw [List.getLast?_eq_getElem?, hgrow]
    simpa using hlast
  have hcur : pyLen (CollabJson.arr Lnew) = L.length + 1 := by
    simpa [pyLen] using hgrow
  have htr : pyTruthy (CollabJson.arr Lnew) = true := by
    simp [pyTruthy, hne]
  simp only [handle_collaborators_update, hsess, hprev, hcur, htr, pyLastItem, hlast']
  simp [hgrow]

/-- Witness for C4: the first record of a one-record snapshot is delivered
exactly once. -/
theorem collaborator_found_single_newest_witness :
    (handle_collaborators_update true ⟨CollabJson.arr []⟩
        (some (CollabJson.arr [mkCollaboratorProfile sampleGraphObj]))).2
      = [Event.collaborator_found (mkCollaboratorProfile sampleGraphObj) 1] := by
  have h := collaborator_found_single_newest [] [mkCollaboratorProfile sampleGraphObj]
    (mkCollaboratorProfile sampleGraphObj) ⟨CollabJson.arr []⟩ rfl (by simp) (by simp)
  simpa using h

/-- C5 counterexample: with `main_done.txt` present, exactly one profile
with a non-empty url, and `collaborators_done.txt` not yet present, two
successive (identical) modifications of `main_profile.json` each start
collaborator scraping — the dispatcher triggers twice, not exactly once. -/
theorem auto_trigger_exactly_once_cex :
    countTriggers [fsPending, fsPending] singleSnap = 2 := by decide

/-- C5 amended: an observed modification of a completed single-profile
snapshot with a non-empty url starts collaborator scraping iff
`collaborators_done.txt` is still absent (and `main_profile.json` and
`main_done.txt` exist); once the collaborator completion marker exists,
later modifications never trigger again — but before it appears, every
such modification triggers. -/
theorem auto_trigger_guarded_by_marker (fs : MainFs) (data : MainSnapshot)
    (p : ProfileRecord) (h : data.profiles = [p]) :
    (handle_main_profile_update fs data).2 = true ↔
      (fs.mainProfileExists = true ∧ fs.mainDoneExists = true ∧
        fs.collaboratorsDoneExists = false ∧ p.profile_url ≠ "") := by
  obtain ⟨a, b, c⟩ := fs
  simp only [handle_main_profile_update, h]
  cases a <;> cases b <;> cases c <;>
    by_cases hp : p.profile_url = "" <;>
      simp [hp]

/-- Witness for amended C5: the concrete pending state does trigger. -/
theorem auto_trigger_guarded_by_marker_witness :
    (handle_main_profile_update fsPending singleSnap).2 = true ↔
      (fsPending.mainProfileExists = true ∧ fsPending.mainDoneExists = true ∧
        fsPending.collaboratorsDoneExists = false ∧ sampleProfile.profile_url ≠ "") :=
  auto_trigger_guarded_by_marker fsPending singleSnap sampleProfile (by decide)

end YokMcp
